import Mathlib

/-!
Verification of the wrapper-connection core of the gogo-mc-bedrock-server
relay: the per-agent connection state machine of `manage`/`connect`
(dial, authenticate, back off, retry), `Retry`, `SendMessage` with its
bounded outbound queue, the subscriber broadcast of `readPump`, the
connection registry (`ConnectionManager.Connect`), the auth middleware
(`authMiddleware`) and the probe-address derivation of `GetServerStatus`,
all modelled as executable Lean definitions translated from the Go source.
-/

namespace McRelay

/-- Go strings (and byte slices of text) are modelled as lists of
characters. -/
abbrev Str := List Char

/-- Conversion from a Lean string literal to the model's string type. -/
def str (s : String) : Str := s.toList

/-! ## Auth middleware (internal/server/central_auth.go) -/

/-- The literal prefix checked by `authMiddleware` before extracting a
Bearer credential: `authHeader[:7] == "Bearer "`. -/
def bearerTag : Str := str "Bearer "

/-- From `authMiddleware` (central_auth.go lines 14-28): extract the auth
key, checking in order the `Authorization` header (used only when strictly
longer than 7 bytes and starting with `"Bearer "`), then the `X-Auth-Key`
header, then the `auth` query parameter; each later source is consulted
only while the key is still empty. -/
def extractAuthKey (authHeader xAuthKey authQuery : Str) : Str :=
  let k : Str :=
    if authHeader.length > 7 ∧ authHeader.take 7 = bearerTag
    then authHeader.drop 7 else []
  let k : Str := if k = [] then xAuthKey else k
  if k = [] then authQuery else k

/-- Outcome of one request through the auth middleware. -/
inductive AuthOutcome
  | unauthorizedMissing
  | unauthorizedInvalid
  | handled
deriving DecidableEq, Repr

/-- Function `authMiddleware` (central_auth.go lines 9-43): unauthorized when the
extracted key is empty or differs from the configured secret
(`subtle.ConstantTimeCompare` returns 1 exactly on equal byte slices);
otherwise the wrapped handler is invoked. -/
def authMiddleware (secret authHeader xAuthKey authQuery : Str) : AuthOutcome :=
  let authKey := extractAuthKey authHeader xAuthKey authQuery
  if authKey = [] then .unauthorizedMissing
  else if authKey = secret then .handled
  else .unauthorizedInvalid

/-! ## GetServerStatus probe-address derivation (part_005 lines 187-230) -/

/-- Model of Go `strings.TrimPrefix`: remove the leading occurrence of
`pre`, leaving `s` unchanged when it is not a prefix. -/
def trimPre (pre s : Str) : Str :=
  if s.take pre.length = pre then s.drop pre.length else s

/-- Model of Go `strings.TrimSuffix`: remove the trailing occurrence of
`suf`, leaving `s` unchanged when it is not a suffix. -/
def trimSuf (suf s : Str) : Str :=
  if s.drop (s.length - suf.length) = suf ∧ suf.length ≤ s.length
  then s.take (s.length - suf.length) else s

/-- Model of Go `strings.LastIndex(s, c)` for a one-character needle. -/
def lastIdxOf (c : Char) : Str → Option Nat
  | [] => none
  | a :: rest =>
    match lastIdxOf c rest with
    | some i => some (i + 1)
    | none => if a = c then some 0 else none

/-- The probe-target derivation inside `GetServerStatus` (part_005 lines
187-230): error on an empty address; otherwise strip a leading `ws://` and
a trailing `/ws`, keep everything before the last colon as the host,
rewrite `localhost` to `127.0.0.1`, and append port 19132 unless the
`CFG_SERVER_PORT` environment value (passed here as `cfgServerPort`) is
non-empty. -/
def getServerStatusAddr (address cfgServerPort : Str) : Except Str Str :=
  if address = [] then .error (str "wrapper address is empty")
  else
    let addr := trimPre (str "ws://") address
    let addr := trimSuf (str "/ws") addr
    let host :=
      match lastIdxOf ':' addr with
      | some idx => addr.take idx
      | none => addr
    let host := if host = str "localhost" then str "127.0.0.1" else host
    let sPort := if cfgServerPort ≠ [] then cfgServerPort else str "19132"
    .ok (host ++ [':'] ++ sPort)

/-! ## Connection state machine (part_005) -/

/-- Connection status values (part_005 lines 19-27). -/
inductive WStatus
  | disconnected
  | connecting
  | connected
  | error
  | reconnecting
deriving DecidableEq, Repr, Inhabited

/-- Constant `StatusAuthFailed` (part_005 line 26). -/
def statusAuthFailed : Str := str "authentication failed"

/-- Constant `maxReconnectAttempts` (part_005 line 28). -/
def maxReconnectAttempts : Nat := 5

/-- Constant `reconnectDelay` (part_005 line 29), counted in seconds. -/
def reconnectDelay : Nat := 5

/-- The message stored by `manage` when the automatic attempt cap is hit. -/
def maxAttemptsMsg : Str := str "max reconnection attempts reached. Click retry to try again."

/-- One dial attempt's outcome as `manage` observes it from `connect()`:
success (with whether the resulting session later drops, waking the loop
through `reconnectSignal`), an HTTP-unauthorized failure, or any other
failure carrying the wrapped dial-error text that `manage` stores. -/
inductive DialRound
  | ok (laterDrops : Bool)
  | authFail
  | fail (msg : Str)
deriving DecidableEq, Repr

/-- Observable state of one wrapper connection, plus ghost trace fields
(`dialsMade`, `sleeps`, `okDials`) recording what the loop did. -/
structure MState where
  status : WStatus
  lastError : Str
  attempts : Nat
  dialsMade : Nat
  sleeps : List (WStatus × Nat)
  reconnections : Nat
  okDials : Nat
deriving DecidableEq, Repr

/-- The state `ConnectionManager.Connect` creates a connection in. -/
def initMState : MState :=
  { status := .connecting
    lastError := []
    attempts := 0
    dialsMade := 0
    sleeps := []
    reconnections := 0
    okDials := 0 }

/-- How a run of the `manage` loop ended. -/
inductive ManageEnd
  | terminated
  | awaitingManual
  | connectedIdle
  | outOfRounds
deriving DecidableEq, Repr

/-- Loop `manage` (part_005 lines 252-319) run against a finite schedule of dial
outcomes, with the shutdown signal never fired and no manual retry signal
pending while a failure is handled. Per round: `connect` is called
(`dialsMade` grows); on success `connect` bumps `Stats.Reconnections` and
`manage` clears the error, resets the attempt counter and either loops
after a later session drop or stays connected; on an unauthorized dial
`manage` stores the sticky auth-failure reason and returns; on any other
failure it stores the error, and either sleeps `reconnectDelay × attempts`
in `reconnecting` and redials, or — once `attempts` has reached the cap —
stores the manual-retry message and blocks awaiting `done` or
`reconnectSignal`. -/
def manageRun : List DialRound → MState → MState × ManageEnd
  | [], s => (s, .outOfRounds)
  | r :: rest, s0 =>
    let s := { s0 with dialsMade := s0.dialsMade + 1 }
    match r with
    | .authFail =>
      ({ s with status := .error, lastError := statusAuthFailed }, .terminated)
    | .fail msg =>
      let s := { s with status := .error, lastError := msg }
      if s.attempts ≥ maxReconnectAttempts then
        ({ s with lastError := maxAttemptsMsg }, .awaitingManual)
      else
        manageRun rest
          { s with
            attempts := s.attempts + 1
            status := .reconnecting
            sleeps := s.sleeps ++ [(.reconnecting, reconnectDelay * (s.attempts + 1))] }
    | .ok laterDrops =>
      let s :=
        { s with
          attempts := 0
          lastError := []
          status := .connected
          reconnections := s.reconnections + 1
          okDials := s.okDials + 1 }
      if laterDrops then manageRun rest s else (s, .connectedIdle)

/-- The `manage` loop's reaction to receiving `reconnectSignal` while
blocked after the attempt cap (part_005 lines 283-287): reset the attempt
counter to zero and dial again. -/
def manageResume (s : MState) (rounds : List DialRound) : MState × ManageEnd :=
  manageRun rounds { s with attempts := 0 }

/-! ## Retry (part_005 lines 135-154) -/

/-- Result of `Retry()`, one constructor per distinct returned error. -/
inductive RetryResult
  | ok
  | errAlreadyStatus (st : WStatus)
  | errClosed
  | errInProgress
deriving DecidableEq, Repr

/-- Method `Retry()` (part_005 lines 135-154): rejected while `connected` or `connecting`; otherwise a
non-blocking select. The unbuffered send on `reconnectSignal` is ready only
when the manage goroutine is currently blocked receiving (`manageWaiting`);
the `done` receive is ready once `done` is closed (`doneClosed`); with
neither ready the `default` branch reports a retry already in progress.
When both are ready Go chooses uniformly at random, resolved here by
`pick`. On a successful send the status becomes `connecting`. -/
def retryCall (st : WStatus) (manageWaiting doneClosed pick : Bool) :
    RetryResult × WStatus :=
  if st = .connected ∨ st = .connecting then (.errAlreadyStatus st, st)
  else
    match manageWaiting, doneClosed with
    | true, false => (.ok, .connecting)
    | false, true => (.errClosed, st)
    | false, false => (.errInProgress, st)
    | true, true => if pick then (.ok, .connecting) else (.errClosed, st)

/-! ## SendMessage (part_005 lines 171-184) -/

/-- Capacity of the buffered `sendChan` (part_005 line 96). -/
def sendQueueCap : Nat := 100

/-- Result of `SendMessage`, one constructor per distinct returned error. -/
inductive SendOutcome
  | enqueued
  | errNotConnected
  | errClosed
  | errFull
deriving DecidableEq, Repr

/-- Method `SendMessage` (part_005 lines 171-184): a status gate, then a non-blocking select between the
buffered enqueue (ready exactly when the queue is below capacity — the
channel is never closed), the `done` receive (ready once `done` is closed)
and `default`. When both the enqueue and the `done` receive are ready Go
chooses uniformly at random, resolved here by `pick`. Returns the outcome
and the queue afterwards. -/
def sendMessage (st : WStatus) (doneClosed : Bool) (q : List Str) (m : Str)
    (pick : Bool) : SendOutcome × List Str :=
  if st ≠ .connected then (.errNotConnected, q)
  else if q.length < sendQueueCap then
    if doneClosed then
      if pick then (.enqueued, q ++ [m]) else (.errClosed, q)
    else (.enqueued, q ++ [m])
  else if doneClosed then (.errClosed, q)
  else (.errFull, q)

/-- Submit payloads in order through `sendMessage` while `connected`, with
`done` never fired and the queue never drained; collects the outcomes. -/
def submitAll (msgs : List Str) (q : List Str) : List SendOutcome × List Str :=
  match msgs with
  | [] => ([], q)
  | m :: rest =>
    let r1 := sendMessage .connected false q m true
    let r2 := submitAll rest r1.2
    (r1.1 :: r2.1, r2.2)

/-! ## Subscriber broadcast in readPump (part_005 lines 440-462) -/

/-- A dashboard subscriber socket: an identifier plus whether a write to
it succeeds. -/
structure Client where
  cid : Nat
  writeOk : Bool
deriving DecidableEq, Repr

/-- Result of the broadcast loop: either it completes (with the ids
delivered to, in iteration order, and the surviving subscriber set), or it
blocks forever. -/
inductive BroadcastResult
  | completed (delivered : List Nat) (remaining : List Client)
  | deadlocked (delivered : List Nat)
deriving DecidableEq, Repr

/-- Walk the subscriber set in iteration order while the read lock of
`clientsMu` is held. A successful write delivers the payload; on a write
failure the code calls `RemoveClient`, whose `clientsMu.Lock()` must wait
for all readers to release — but the reader is this very goroutine, so the
acquisition blocks forever (Go `sync.RWMutex` is not reentrant). -/
def broadcastWalk (all : List Client) : List Client → List Nat → BroadcastResult
  | [], acc => .completed acc.reverse all
  | c :: rest, acc =>
    if c.writeOk then broadcastWalk all rest (c.cid :: acc)
    else .deadlocked acc.reverse

/-- The broadcast step of `readPump` for one received payload, over the
subscriber set as iterated. -/
def broadcastGo (clients : List Client) : BroadcastResult :=
  broadcastWalk clients clients []

/-! ## Connection registry (part_005 lines 64-109) -/

/-- The fields of `WrapperConnection` that `Connect` populates. -/
structure WConn where
  id : Str
  name : Str
  address : Str
  username : Str
  password : Str
  sharedKey : Str
  status : WStatus
  lastError : Str
deriving DecidableEq, Repr, Inhabited

/-- The `connections` map, as an association list in insertion order. -/
abbrev Registry := List (Str × WConn)

/-- Go map lookup `m.connections[id]`. -/
def lookupConn (r : Registry) (id : Str) : Option WConn :=
  match r with
  | [] => none
  | (k, c) :: rest => if k = id then some c else lookupConn rest id

/-- Method `ConnectionManager.Connect` (part_005 lines 78-109): a duplicate id is
rejected with an error and the registry is untouched (no connection is
constructed, no manage goroutine starts); otherwise a fresh connection in
`connecting` state is registered, its manage loop starts, and the call
returns at once. The second component is the constructed connection on
success, or the error text. -/
def connectReg (r : Registry) (id name address username password sharedKey : Str) :
    Registry × Except Str WConn :=
  if (lookupConn r id).isSome then
    (r, .error (str "connection with ID " ++ id ++ str " already exists"))
  else
    let c : WConn :=
      { id := id
        name := name
        address := address
        username := username
        password := password
        sharedKey := sharedKey
        status := .connecting
        lastError := [] }
    (r ++ [(id, c)], .ok c)

/-- How many registry entries carry a given id. -/
def countId (r : Registry) (id : Str) : Nat :=
  (r.filter (fun e => e.1 = id)).length

/-! ## Helper lemmas -/

theorem lastIdxOf_eq_none {c : Char} {p : Str} (h : c ∉ p) :
    lastIdxOf c p = none := by
  induction p with
  | nil => rfl
  | cons a rest ih =>
    simp only [List.mem_cons, not_or] at h
    have ha : ¬ a = c := fun e => h.1 e.symm
    simp [lastIdxOf, ih h.2, ha]

theorem lastIdxOf_append_cons {c : Char} (h : Str) {p : Str} (hp : c ∉ p) :
    lastIdxOf c (h ++ c :: p) = some h.length := by
  induction h with
  | nil => simp [lastIdxOf, lastIdxOf_eq_none hp]
  | cons a rest ih => simp [lastIdxOf, ih]

theorem trimPre_append (pre rest : Str) : trimPre pre (pre ++ rest) = rest := by
  simp [trimPre]

theorem trimSuf_append (s suf : Str) : trimSuf suf (s ++ suf) = s := by
  simp [trimSuf]

/-- C9: GetServerStatus derives the probe target purely from the
configured address string: an empty address yields an error without
probing; otherwise a leading `ws://` and a trailing `/ws` are stripped,
everything from the last colon onward is dropped, a resulting host
`localhost` becomes `127.0.0.1`, and the probe target is host:19132 — or
host:CFG_SERVER_PORT when that value is non-empty — so the port inside the
configured websocket address never influences the probe target. -/
theorem C9_probe_target_derivation :
    (∀ env, getServerStatusAddr [] env = .error (str "wrapper address is empty")) ∧
    (∀ h p env, ':' ∉ p →
      getServerStatusAddr (str "ws://" ++ h ++ [':'] ++ p ++ str "/ws") env =
        .ok ((if h = str "localhost" then str "127.0.0.1" else h) ++ [':'] ++
          (if env ≠ [] then env else str "19132"))) ∧
    (∀ h p1 p2 env, ':' ∉ p1 → ':' ∉ p2 →
      getServerStatusAddr (str "ws://" ++ h ++ [':'] ++ p1 ++ str "/ws") env =
        getServerStatusAddr (str "ws://" ++ h ++ [':'] ++ p2 ++ str "/ws") env) := by
  have main : ∀ h p env, ':' ∉ p →
      getServerStatusAddr (str "ws://" ++ h ++ [':'] ++ p ++ str "/ws") env =
        .ok ((if h = str "localhost" then str "127.0.0.1" else h) ++ [':'] ++
          (if env ≠ [] then env else str "19132")) := by
    intro h p env hp
    have hne : str "ws://" ++ h ++ [':'] ++ p ++ str "/ws" ≠ [] := by
      simp [str]
    have e1 : str "ws://" ++ h ++ [':'] ++ p ++ str "/ws" =
        str "ws://" ++ ((h ++ [':'] ++ p) ++ str "/ws") := by
      simp
    have e2 : h ++ [':'] ++ p ++ str "/ws" = (h ++ ':' :: p) ++ str "/ws" := by simp
    simp only [getServerStatusAddr, if_neg hne]
    rw [e1, trimPre_append, e2, trimSuf_append, lastIdxOf_append_cons h hp]
    simp
  exact ⟨fun env => rfl, main, fun h p1 p2 env hp1 hp2 => by
    rw [main h p1 env hp1, main h p2 env hp2]⟩

theorem extractAuthKey_eq (h x q : Str) :
    extractAuthKey h x q =
      (if h.length > 7 ∧ h.take 7 = bearerTag then h.drop 7
       else if x ≠ [] then x else q) := by
  unfold extractAuthKey
  by_cases hc : h.length > 7 ∧ h.take 7 = bearerTag
  · have hd : h.drop 7 ≠ [] := by
      intro e
      have := congrArg List.length e
      simp at this
      omega
    simp [hc, hd]
  · by_cases hx : x = [] <;> simp [hc, hx]

/-- C5: the auth middleware takes as credential the first non-empty of the
Bearer header, the X-Auth-Key header and the auth query parameter, in that
order; an absent credential or one differing from the configured secret
yields an unauthorized outcome and the wrapped handler is not invoked,
while the exact secret carried through any one of the three channels makes
the wrapped handler run, identically in all three cases. -/
theorem C5_auth_channels_and_secret :
    (∀ h x q, extractAuthKey h x q =
      (if h.length > 7 ∧ h.take 7 = bearerTag then h.drop 7
       else if x ≠ [] then x else q)) ∧
    (∀ secret h x q, extractAuthKey h x q = [] →
      authMiddleware secret h x q = .unauthorizedMissing) ∧
    (∀ secret h x q, extractAuthKey h x q ≠ [] → extractAuthKey h x q ≠ secret →
      authMiddleware secret h x q = .unauthorizedInvalid) ∧
    (∀ secret h x q, extractAuthKey h x q ≠ [] → extractAuthKey h x q = secret →
      authMiddleware secret h x q = .handled) ∧
    (∀ secret, secret ≠ [] →
      authMiddleware secret (bearerTag ++ secret) [] [] = .handled ∧
      authMiddleware secret [] secret [] = .handled ∧
      authMiddleware secret [] [] secret = .handled) := by
  refine ⟨extractAuthKey_eq, ?_, ?_, ?_, ?_⟩
  · intro secret h x q he
    simp [authMiddleware, he]
  · intro secret h x q hne hs
    simp [authMiddleware, hne, hs]
  · intro secret h x q hne hs
    rw [hs] at hne
    simp [authMiddleware, hs, hne]
  · intro secret hs
    have hb : extractAuthKey (bearerTag ++ secret) [] [] = secret := by
      rw [extractAuthKey_eq]
      have hlen : 7 < bearerTag.length + secret.length := by
        have h0 : secret.length ≠ 0 := fun e => hs (List.eq_nil_of_length_eq_zero e)
        have eb : bearerTag.length = 7 := rfl
        omega
      have htake : (bearerTag ++ secret).take 7 = bearerTag := by
        have e : (7 : Nat) = bearerTag.length := rfl
        rw [e, List.take_left]
      have hdrop : (bearerTag ++ secret).drop 7 = secret := by
        have e : (7 : Nat) = bearerTag.length := rfl
        rw [e, List.drop_left]
      simp [List.length_append, hlen, htake, hdrop]
    have hx : extractAuthKey [] secret [] = secret := by
      rw [extractAuthKey_eq]
      simp [hs, bearerTag, str]
    have hq : extractAuthKey [] [] secret = secret := by
      rw [extractAuthKey_eq]
      simp [bearerTag, str]
    refine ⟨?_, ?_, ?_⟩ <;> simp [authMiddleware, hb, hx, hq, hs]

/-- C10: an Authorization header is used as the credential only when it is
strictly longer than 7 characters and begins with the exact prefix
`Bearer `; any other Authorization value is silently ignored rather than
rejected, the X-Auth-Key header and then the auth query parameter are
still consulted, and such a request can still authenticate through those
channels. -/
theorem C10_bearer_extraction_rules :
    (∀ h x q, h.length > 7 → h.take 7 = bearerTag →
      extractAuthKey h x q = h.drop 7) ∧
    (∀ h x q, ¬ (h.length > 7 ∧ h.take 7 = bearerTag) →
      extractAuthKey h x q = (if x ≠ [] then x else q)) ∧
    (∀ secret, secret ≠ [] →
      authMiddleware secret (str "Basic abc") secret [] = .handled ∧
      authMiddleware secret bearerTag [] secret = .handled) := by
  refine ⟨?_, ?_, ?_⟩
  · intro h x q h1 h2
    rw [extractAuthKey_eq]
    simp [h1, h2]
  · intro h x q hc
    rw [extractAuthKey_eq, if_neg hc]
  · intro secret hs
    have h1 : extractAuthKey (str "Basic abc") secret [] = secret := by
      rw [extractAuthKey_eq]
      have : ¬ ((str "Basic abc").length > 7 ∧ (str "Basic abc").take 7 = bearerTag) := by
        decide
      simp [this, hs]
    have h2 : extractAuthKey bearerTag [] secret = secret := by
      rw [extractAuthKey_eq]
      have : ¬ (bearerTag.length > 7 ∧ bearerTag.take 7 = bearerTag) := by decide
      simp [this]
    constructor <;> simp [authMiddleware, h1, h2, hs]

/-- C5 witness: the claim theorem applied at the concrete secret `k`,
with the credential missing, wrong, and correct through each channel. -/
theorem C5_auth_channels_and_secret_witness :
    authMiddleware (str "k") [] [] [] = .unauthorizedMissing ∧
    authMiddleware (str "k") [] (str "bad") [] = .unauthorizedInvalid ∧
    authMiddleware (str "k") [] (str "k") [] = .handled ∧
    (authMiddleware (str "k") (str "Bearer k") [] [] = .handled ∧
      authMiddleware (str "k") [] (str "k") [] = .handled ∧
      authMiddleware (str "k") [] [] (str "k") = .handled) :=
  ⟨C5_auth_channels_and_secret.2.1 (str "k") [] [] [] (by decide),
   C5_auth_channels_and_secret.2.2.1 (str "k") [] (str "bad") [] (by decide) (by decide),
   C5_auth_channels_and_secret.2.2.2.1 (str "k") [] (str "k") [] (by decide) (by decide),
   C5_auth_channels_and_secret.2.2.2.2 (str "k") (by decide)⟩

/-- C10 witness: the claim theorem applied at concrete headers — a Bearer
credential is extracted, a Basic one is ignored and the other channels
still authenticate, as does an exactly-`Bearer ` header with the query. -/
theorem C10_bearer_extraction_rules_witness :
    extractAuthKey (str "Bearer kk") [] [] = str "kk" ∧
    extractAuthKey (str "Basic abc") (str "x") [] = str "x" ∧
    (authMiddleware (str "k") (str "Basic abc") (str "k") [] = .handled ∧
      authMiddleware (str "k") bearerTag [] (str "k") = .handled) :=
  ⟨C10_bearer_extraction_rules.1 (str "Bearer kk") [] [] (by decide) (by decide),
   C10_bearer_extraction_rules.2.1 (str "Basic abc") (str "x") [] (by decide),
   C10_bearer_extraction_rules.2.2 (str "k") (by decide)⟩

/-- C9 witness: the claim theorem applied at concrete addresses, covering
the empty address, the localhost rewrite with the default port, the
configured-port override, and the irrelevance of the websocket port. -/
theorem C9_probe_target_derivation_witness :
    getServerStatusAddr [] [] = .error (str "wrapper address is empty") ∧
    getServerStatusAddr (str "ws://localhost:8080/ws") [] = .ok (str "127.0.0.1:19132") ∧
    getServerStatusAddr (str "ws://host:8080/ws") (str "2000") = .ok (str "host:2000") ∧
    getServerStatusAddr (str "ws://host:1111/ws") [] =
      getServerStatusAddr (str "ws://host:2222/ws") [] :=
  ⟨C9_probe_target_derivation.1 [],
   C9_probe_target_derivation.2.1 (str "localhost") (str "8080") [] (by decide),
   C9_probe_target_derivation.2.1 (str "host") (str "8080") (str "2000") (by decide),
   C9_probe_target_derivation.2.2 (str "host") (str "1111") (str "2222") []
     (by decide) (by decide)⟩

/-- C1 counterexample: a connection whose single dial attempt fails with
an HTTP unauthorized response. The manage loop has terminated — its run
ends in the `terminated` end-state, not a waiting one — and a subsequent
manual `Retry()` finds no goroutine left to receive the wake-up signal, so
it fails with the retry-already-in-progress error instead of being acted
on, contrary to the claim that the loop keeps waiting indefinitely. -/
theorem C1_auth_fail_counterexample :
    manageRun [.authFail] initMState =
      ({ initMState with
         dialsMade := 1
         status := .error
         lastError := statusAuthFailed }, .terminated) ∧
    retryCall .error false false true = (.errInProgress, .error) := by
  exact ⟨rfl, rfl⟩

/-- C1 (amended): a dial attempt that fails with an HTTP unauthorized
response puts the connection in error status with the sticky
authentication-failed reason, consumes no automatic-retry attempts and
performs no automatic redial or backoff sleep — but the manage loop
terminates rather than keep waiting, leaving whatever dial rounds remain
unconsumed, and a later manual `Retry()` is rejected with the
retry-already-in-progress error because no receiver for the retry signal
remains. -/
theorem C1_auth_fail_terminates_manage :
    (∀ rounds s, manageRun (.authFail :: rounds) s =
      ({ s with
         dialsMade := s.dialsMade + 1
         status := .error
         lastError := statusAuthFailed }, .terminated)) ∧
    (∀ pick, retryCall .error false false pick = (.errInProgress, .error)) := by
  constructor
  · intro rounds s
    rfl
  · intro pick
    rfl

/-- C2: against a schedule whose first six dials all fail transiently, the
manage loop makes exactly 5 additional dial attempts beyond the first,
sleeping 5, 10, 15, 20, 25 seconds (75 in total) in `reconnecting` status
before each of them; after the maximum is reached it is left in `error`
status carrying the manual-retry message, blocks awaiting a manual retry
or shutdown, and consumes no further dial rounds. -/
theorem C2_linear_backoff_then_manual_wait
    (m1 m2 m3 m4 m5 m6 : Str) (rest : List DialRound) :
    manageRun (.fail m1 :: .fail m2 :: .fail m3 :: .fail m4 :: .fail m5 ::
        .fail m6 :: rest) initMState =
      ({ status := .error
         lastError := maxAttemptsMsg
         attempts := 5
         dialsMade := 6
         sleeps := [(.reconnecting, 5), (.reconnecting, 10), (.reconnecting, 15),
                    (.reconnecting, 20), (.reconnecting, 25)]
         reconnections := 0
         okDials := 0 }, .awaitingManual) ∧
    ((manageRun (.fail m1 :: .fail m2 :: .fail m3 :: .fail m4 :: .fail m5 ::
        .fail m6 :: rest) initMState).1.sleeps.map Prod.snd).sum = 75 := by
  have H : manageRun (.fail m1 :: .fail m2 :: .fail m3 :: .fail m4 :: .fail m5 ::
      .fail m6 :: rest) initMState =
      ({ status := .error
         lastError := maxAttemptsMsg
         attempts := 5
         dialsMade := 6
         sleeps := [(.reconnecting, 5), (.reconnecting, 10), (.reconnecting, 15),
                    (.reconnecting, 20), (.reconnecting, 25)]
         reconnections := 0
         okDials := 0 }, .awaitingManual) := by
    rfl
  exact ⟨H, by rw [H]; rfl⟩

/-- C6 counterexample: status is `error`, the connection has not shut
down, but the manage loop is not currently blocked on the retry signal
(it is asleep in a backoff, or gone after an auth failure): `Retry()`
returns the retry-already-in-progress error rather than succeeding, so
the claim's "in every other case it succeeds" fails here. -/
theorem C6_retry_counterexample :
    retryCall .error false false true = (.errInProgress, .error) ∧
    retryCall .error false false false = (.errInProgress, .error) := by
  exact ⟨rfl, rfl⟩

/-- C6 (amended): `Retry()` errors while `connected` or `connecting`;
otherwise it returns the connection-closed error when the connection has
shut down and the manage loop is no longer receiving; it succeeds — status
becomes `connecting` and the loop is woken — exactly when the manage loop
is currently waiting on the retry signal (when both the shutdown receive
and the wake-up send are ready the select races between success and the
connection-closed error); in the remaining case it returns a distinct
retry-already-in-progress error. A wake-up received by the loop resets
the automatic-retry counter to zero, so a fresh backoff sequence (first
sleep 5 again) begins. -/
theorem C6_retry_cases :
    (∀ w d p, retryCall .connected w d p = (.errAlreadyStatus .connected, .connected)) ∧
    (∀ w d p, retryCall .connecting w d p = (.errAlreadyStatus .connecting, .connecting)) ∧
    (∀ st p, st ≠ .connected → st ≠ .connecting →
      retryCall st false true p = (.errClosed, st)) ∧
    (∀ st p, st ≠ .connected → st ≠ .connecting →
      retryCall st true false p = (.ok, .connecting)) ∧
    (∀ st p, st ≠ .connected → st ≠ .connecting →
      retryCall st false false p = (.errInProgress, st)) ∧
    (∀ st, st ≠ .connected → st ≠ .connecting →
      retryCall st true true true = (.ok, .connecting) ∧
      retryCall st true true false = (.errClosed, st)) ∧
    (∀ s rounds, manageResume s rounds = manageRun rounds { s with attempts := 0 }) ∧
    (∀ m, (manageResume { initMState with attempts := 5 } [.fail m]).1.sleeps =
      [(.reconnecting, 5)]) := by
  refine ⟨fun w d p => rfl, fun w d p => rfl, ?_, ?_, ?_, ?_, fun s rounds => rfl,
    fun m => rfl⟩
  · intro st p h1 h2
    cases st <;> first | exact absurd rfl h1 | exact absurd rfl h2 | rfl
  · intro st p h1 h2
    cases st <;> first | exact absurd rfl h1 | exact absurd rfl h2 | rfl
  · intro st p h1 h2
    cases st <;> first | exact absurd rfl h1 | exact absurd rfl h2 | rfl
  · intro st h1 h2
    cases st <;> first | exact absurd rfl h1 | exact absurd rfl h2 | exact ⟨rfl, rfl⟩

/-- C6 witness: the amended claim theorem applied at status `error` with
each combination of loop-waiting and shutdown readiness. -/
theorem C6_retry_cases_witness :
    retryCall .error false true true = (.errClosed, .error) ∧
    retryCall .error true false true = (.ok, .connecting) ∧
    retryCall .error false false true = (.errInProgress, .error) ∧
    (retryCall .error true true true = (.ok, .connecting) ∧
      retryCall .error true true false = (.errClosed, .error)) :=
  ⟨C6_retry_cases.2.2.1 .error true (by decide) (by decide),
   C6_retry_cases.2.2.2.1 .error true (by decide) (by decide),
   C6_retry_cases.2.2.2.2.1 .error true (by decide) (by decide),
   C6_retry_cases.2.2.2.2.2.1 .error (by decide) (by decide)⟩

/-- C8 counterexample: one completed (failing) dial attempt leaves the
reconnections counter at 0 while the dial count is 1, so the counter does
not count completed dial attempts regardless of success. -/
theorem C8_reconnections_counterexample :
    (manageRun [.fail (str "dial refused")] initMState).1.dialsMade = 1 ∧
    (manageRun [.fail (str "dial refused")] initMState).1.reconnections = 0 := by
  exact ⟨rfl, rfl⟩

/-- C8 (amended): the reconnections statistic counts successful dial
attempts only — `connect` increments it after the dial succeeds, and a
failing dial returns before the increment — so whenever the counter
matches the number of successful dials so far, it still does after any
further run of the manage loop. -/
theorem C8_reconnections_count_successful_dials (rounds : List DialRound)
    (s : MState) (h : s.reconnections = s.okDials) :
    (manageRun rounds s).1.reconnections = (manageRun rounds s).1.okDials := by
  induction rounds generalizing s with
  | nil => simpa [manageRun] using h
  | cons r rest ih =>
    cases r with
    | authFail => simpa [manageRun] using h
    | ok laterDrops =>
      cases laterDrops with
      | false => simpa [manageRun] using h
      | true =>
        simp only [manageRun]
        exact ih _ (by simp [h])
    | fail msg =>
      by_cases hc : s.attempts ≥ maxReconnectAttempts
      · simpa [manageRun, hc] using h
      · simp only [manageRun, hc, if_false]
        exact ih _ (by simp [h])

/-- C8 witness: the amended claim theorem applied to a run with one
successful dial from the initial state. -/
theorem C8_reconnections_count_successful_dials_witness :
    (manageRun [.ok false] initMState).1.reconnections =
      (manageRun [.ok false] initMState).1.okDials :=
  C8_reconnections_count_successful_dials [.ok false] initMState rfl

theorem submitAll_spec (msgs : List Str) : ∀ q : List Str,
    q.length ≤ sendQueueCap →
    (submitAll msgs q).1 =
      List.replicate (min msgs.length (sendQueueCap - q.length)) SendOutcome.enqueued ++
        List.replicate (msgs.length - (sendQueueCap - q.length)) SendOutcome.errFull ∧
    (submitAll msgs q).2 = q ++ msgs.take (sendQueueCap - q.length) := by
  induction msgs with
  | nil => intro q hq; simp [submitAll]
  | cons m rest ih =>
    intro q hq
    by_cases hlt : q.length < sendQueueCap
    · have hq2 : (q ++ [m]).length ≤ sendQueueCap := by
        simp only [List.length_append, List.length_cons, List.length_nil]
        omega
      obtain ⟨ih1, ih2⟩ := ih (q ++ [m]) hq2
      have hk : sendQueueCap - q.length = (sendQueueCap - (q ++ [m]).length) + 1 := by
        simp only [List.length_append, List.length_cons, List.length_nil]
        omega
      have hsend : sendMessage .connected false q m true = (.enqueued, q ++ [m]) := by
        simp [sendMessage, hlt]
      constructor
      · simp only [submitAll, hsend]
        rw [ih1, hk]
        simp [List.replicate_succ, Nat.succ_min_succ, Nat.succ_sub_succ]
      · simp only [submitAll, hsend]
        rw [ih2, hk]
        simp [List.take_succ_cons, List.append_assoc]
    · have hk0 : sendQueueCap - q.length = 0 := by omega
      obtain ⟨ih1, ih2⟩ := ih q hq
      have hsend : sendMessage .connected false q m true = (.errFull, q) := by
        simp [sendMessage, hlt]
      constructor
      · simp only [submitAll, hsend]
        rw [ih1, hk0]
        simp [List.replicate_succ]
      · simp only [submitAll, hsend]
        rw [ih2, hk0]
        simp

/-- C3 counterexample: with the done signal fired, status `connected` and
an empty queue, the non-blocking select can take the enqueue case, so the
call enqueues and succeeds instead of returning the connection-closed
error the claim requires whenever done has fired. -/
theorem C3_send_after_done_counterexample :
    sendMessage .connected true [] (str "x") true = (.enqueued, [str "x"]) := by
  rfl

/-- C3 (amended): SendMessage never blocks: a not-connected error when the
status is not `connected` (queue untouched); with the done signal fired, a
connection-closed error when the queue is full, and a race between
enqueueing and the connection-closed error when the queue has space; with
done not fired, a queue-full error when the queue already holds 100 items
and otherwise an immediate successful enqueue; each rejection carries a
distinct error. Consequently, for more than 100 submissions while
connected (done never fired) with the queue never drained, exactly the
first 100 in submission order succeed and the rest are rejected as
queue-full. -/
theorem C3_sendMessage_never_blocks :
    (∀ st d q m p, st ≠ .connected → sendMessage st d q m p = (.errNotConnected, q)) ∧
    (∀ q m p, ¬ q.length < sendQueueCap →
      sendMessage .connected true q m p = (.errClosed, q)) ∧
    (∀ q m p, ¬ q.length < sendQueueCap →
      sendMessage .connected false q m p = (.errFull, q)) ∧
    (∀ q m p, q.length < sendQueueCap →
      sendMessage .connected false q m p = (.enqueued, q ++ [m])) ∧
    (∀ q m, q.length < sendQueueCap →
      sendMessage .connected true q m true = (.enqueued, q ++ [m]) ∧
      sendMessage .connected true q m false = (.errClosed, q)) ∧
    (∀ msgs : List Str, msgs.length > sendQueueCap →
      (submitAll msgs []).1 = List.replicate sendQueueCap SendOutcome.enqueued ++
        List.replicate (msgs.length - sendQueueCap) SendOutcome.errFull ∧
      (submitAll msgs []).2 = msgs.take sendQueueCap) := by
  refine ⟨?_, ?_, ?_, ?_, ?_, ?_⟩
  · intro st d q m p hst
    simp [sendMessage, hst]
  · intro q m p hq
    simp [sendMessage, hq]
  · intro q m p hq
    simp [sendMessage, hq]
  · intro q m p hq
    simp [sendMessage, hq]
  · intro q m hq
    exact ⟨by simp [sendMessage, hq], by simp [sendMessage, hq]⟩
  · intro msgs hlen
    obtain ⟨h1, h2⟩ := submitAll_spec msgs [] (by simp [sendQueueCap])
    constructor
    · rw [h1]
      congr 1
      simp
      omega
    · rw [h2]
      simp

/-- C3 witness: the amended claim theorem applied at concrete inputs —
each rejection case, the race after shutdown, a plain enqueue, and 101
submissions of which exactly the first 100 are accepted. -/
theorem C3_sendMessage_never_blocks_witness :
    sendMessage .disconnected false [] (str "a") true = (.errNotConnected, []) ∧
    sendMessage .connected true (List.replicate 100 (str "a")) (str "b") true =
      (.errClosed, List.replicate 100 (str "a")) ∧
    sendMessage .connected false (List.replicate 100 (str "a")) (str "b") true =
      (.errFull, List.replicate 100 (str "a")) ∧
    sendMessage .connected false [] (str "a") true = (.enqueued, [str "a"]) ∧
    (sendMessage .connected true [] (str "a") true = (.enqueued, [str "a"]) ∧
      sendMessage .connected true [] (str "a") false = (.errClosed, [])) ∧
    ((submitAll (List.replicate 101 (str "a")) []).1 =
        List.replicate 100 SendOutcome.enqueued ++ List.replicate 1 SendOutcome.errFull ∧
      (submitAll (List.replicate 101 (str "a")) []).2 =
        (List.replicate 101 (str "a")).take 100) :=
  ⟨C3_sendMessage_never_blocks.1 .disconnected false [] (str "a") true (by decide),
   C3_sendMessage_never_blocks.2.1 (List.replicate 100 (str "a")) (str "b") true
     (by simp [sendQueueCap]),
   C3_sendMessage_never_blocks.2.2.1 (List.replicate 100 (str "a")) (str "b") true
     (by simp [sendQueueCap]),
   C3_sendMessage_never_blocks.2.2.2.1 [] (str "a") true (by simp [sendQueueCap]),
   C3_sendMessage_never_blocks.2.2.2.2.1 [] (str "a") (by simp [sendQueueCap]),
   C3_sendMessage_never_blocks.2.2.2.2.2 (List.replicate 101 (str "a")) (by simp [sendQueueCap])⟩

/-- C4: evaluating the broadcast loop of readPump at a subscriber set
holding a failing subscriber followed by a healthy one. The write failure
makes the loop call RemoveClient, whose write-lock acquisition on
`clientsMu` can never succeed while this same goroutine still holds the
read lock, so the loop deadlocks: it never completes and the healthy
subscriber never receives the payload. With the healthy subscriber
iterated first, it is delivered to before the loop deadlocks on the
failing one. -/
theorem C4_broadcast_deadlocks_on_write_failure :
    broadcastGo [{ cid := 0, writeOk := false }, { cid := 1, writeOk := true }] =
      .deadlocked [] ∧
    broadcastGo [{ cid := 1, writeOk := true }, { cid := 0, writeOk := false }] =
      .deadlocked [1] ∧
    broadcastGo [{ cid := 1, writeOk := true }, { cid := 2, writeOk := true }] =
      .completed [1, 2] [{ cid := 1, writeOk := true }, { cid := 2, writeOk := true }] := by
  exact ⟨rfl, rfl, rfl⟩

theorem lookupConn_append_self (r : Registry) (id : Str) (c : WConn)
    (h : lookupConn r id = none) : lookupConn (r ++ [(id, c)]) id = some c := by
  induction r with
  | nil => simp [lookupConn]
  | cons e rest ih =>
    obtain ⟨k, v⟩ := e
    by_cases hk : k = id
    · simp [lookupConn, hk] at h
    · simp only [lookupConn, hk, if_neg hk, List.cons_append] at h ⊢
      exact ih h

theorem countId_append_self (r : Registry) (id : Str) (c : WConn) :
    countId (r ++ [(id, c)]) id = countId r id + 1 := by
  simp [countId]

theorem countId_eq_zero (r : Registry) (id : Str) (h : lookupConn r id = none) :
    countId r id = 0 := by
  induction r with
  | nil => rfl
  | cons e rest ih =>
    obtain ⟨k, v⟩ := e
    by_cases hk : k = id
    · simp [lookupConn, hk] at h
    · simp only [lookupConn, if_neg hk] at h
      simpa [countId, List.filter_cons, hk] using ih h

/-- C7: Connect with a fresh id registers exactly one new connection, in
`connecting` state, and returns at once; calling Connect again with the
same id returns the duplicate-identifier error and leaves the registry
completely unchanged — no connection is constructed — still holding
exactly one connection for that id. -/
theorem C7_connect_duplicate_rejected (r : Registry)
    (id nm ad us pw sk nm2 ad2 us2 pw2 sk2 : Str)
    (hfresh : lookupConn r id = none) :
    (connectReg r id nm ad us pw sk).2 =
      .ok { id := id
            name := nm
            address := ad
            username := us
            password := pw
            sharedKey := sk
            status := .connecting
            lastError := [] } ∧
    countId (connectReg r id nm ad us pw sk).1 id = 1 ∧
    connectReg (connectReg r id nm ad us pw sk).1 id nm2 ad2 us2 pw2 sk2 =
      ((connectReg r id nm ad us pw sk).1,
        .error (str "connection with ID " ++ id ++ str " already exists")) := by
  have hmiss : (lookupConn r id).isSome = false := by simp [hfresh]
  have hr1 : (connectReg r id nm ad us pw sk).1 =
      r ++ [(id, { id := id
                   name := nm
                   address := ad
                   username := us
                   password := pw
                   sharedKey := sk
                   status := .connecting
                   lastError := [] })] := by
    simp [connectReg, hmiss]
  refine ⟨?_, ?_, ?_⟩
  · simp [connectReg, hmiss]
  · rw [hr1, countId_append_self, countId_eq_zero r id hfresh]
  · have hdup : (lookupConn (connectReg r id nm ad us pw sk).1 id).isSome = true := by
      rw [hr1, lookupConn_append_self r id _ hfresh]
      rfl
    rw [hr1] at hdup
    simp [connectReg, hmiss, hdup]

/-- C7 witness: the claim theorem applied to the empty registry and the
id `a`, then a second Connect with the same id. -/
theorem C7_connect_duplicate_rejected_witness :
    (connectReg [] (str "a") (str "n") (str "ws://h/ws") [] [] (str "sk")).2 =
      .ok { id := str "a"
            name := str "n"
            address := str "ws://h/ws"
            username := []
            password := []
            sharedKey := str "sk"
            status := .connecting
            lastError := [] } ∧
    countId (connectReg [] (str "a") (str "n") (str "ws://h/ws") [] [] (str "sk")).1
      (str "a") = 1 ∧
    connectReg (connectReg [] (str "a") (str "n") (str "ws://h/ws") [] [] (str "sk")).1
        (str "a") (str "n2") (str "ad2") [] [] (str "sk2") =
      ((connectReg [] (str "a") (str "n") (str "ws://h/ws") [] [] (str "sk")).1,
        .error (str "connection with ID " ++ str "a" ++ str " already exists")) :=
  C7_connect_duplicate_rejected [] (str "a") (str "n") (str "ws://h/ws") [] [] (str "sk")
    (str "n2") (str "ad2") [] [] (str "sk2") rfl

end McRelay
